import Mathlib

/-!
Shallow embedding of the Nexchat chat-widget controller
(src/nexchat/public/js/nexchat.js) and proofs about its rendering,
interaction and transport behaviour.
-/

namespace Nexchat

/-! ## JavaScript string primitives -/

/-- Prefix test on character lists: `startsWithList pat s` holds when `pat`
is an initial segment of `s`. -/
def startsWithList : List Char → List Char → Bool
  | [], _ => true
  | _ :: _, [] => false
  | a :: as, b :: bs => a == b && startsWithList as bs

/-- Substring occurrence test on character lists, scanning left to right. -/
def occursIn (pat : List Char) : List Char → Bool
  | [] => pat.isEmpty
  | c :: rest => startsWithList pat (c :: rest) || occursIn pat rest

/-- JavaScript `s.includes(pat)`. -/
def jsIncludes (s pat : String) : Bool :=
  occursIn pat.data s.data

/-- Whitespace recognised by JavaScript `trim` / `\s` (ASCII range). -/
def isJsWhitespace (c : Char) : Bool :=
  c = ' ' || c = '\t' || c = '\n' || c = '\r' || c = '\x0b' || c = '\x0c'

/-- JavaScript `s.trim()`: strip whitespace from both ends. -/
def jsTrim (s : String) : String :=
  String.mk (((s.data.dropWhile isJsWhitespace).reverse.dropWhile isJsWhitespace).reverse)

/-- JavaScript `s.toLowerCase()` (character-wise). -/
def jsToLower (s : String) : String :=
  String.mk (s.data.map Char.toLower)

/-- The regex test `/^\d+$/.test(s)`: `s` is a nonempty run of ASCII digits. -/
def isAllDigits (s : String) : Bool :=
  !s.data.isEmpty && s.data.all (fun c => c.isDigit)

/-! ## escapeHtml

`escapeHtml` in the widget sets `div.textContent = text` and reads back
`div.innerHTML`; HTML text-node serialisation escapes the markup-significant
characters `&`, `<`, `>` and leaves all others unchanged. -/

/-- Serialisation of a single character of a DOM text node. -/
def escapeHtmlChar (c : Char) : String :=
  if c = '&' then "&amp;"
  else if c = '<' then "&lt;"
  else if c = '>' then "&gt;"
  else String.mk [c]

def escapeHtmlList : List Char → String
  | [] => ""
  | c :: rest => escapeHtmlChar c ++ escapeHtmlList rest

/-- `escapeHtml(text)` from the widget. -/
def escapeHtml (t : String) : String :=
  escapeHtmlList t.data

/-! ## addMessage classification -/

inductive Sender where
  | user
  | bot
deriving DecidableEq, BEq, Repr

inductive RenderKind where
  | roleSelection
  | rawHtml
  | plain
deriving DecidableEq, Repr

/-- `text.includes('Select Role(s) for') && text.includes('\x60')`. -/
def isRoleSelectionText (t : String) : Bool :=
  jsIncludes t "Select Role(s) for" && jsIncludes t "\x60"

/-- `text.includes('<div class="nexchat-') || text.includes('<div
class="nexchat-options-container">') || text.includes('<div
class="nexchat-field-container">')`. -/
def isHTMLResponseText (t : String) : Bool :=
  jsIncludes t "<div class=\"nexchat-"
    || jsIncludes t "<div class=\"nexchat-options-container\">"
    || jsIncludes t "<div class=\"nexchat-field-container\">"

/-- Which of the three rendering branches `addMessage` takes for the
message content. -/
def renderKind (t : String) (s : Sender) : RenderKind :=
  if isRoleSelectionText t && (s == Sender.bot) then RenderKind.roleSelection
  else if isHTMLResponseText t && (s == Sender.bot) then RenderKind.rawHtml
  else RenderKind.plain

/-! ## formatRoleSelectionMessage

Faithful rendering of the four global regex replacements applied to a
role-selection message, using a fuel-indexed scan-and-replace loop (fuel is
always supplied as more than the input length, so it never runs out). -/

/-- One scan-and-replace pass: at each position try `tryMatch`; on a match
emit the replacement and continue after the consumed characters, otherwise
copy one character. -/
def replaceAll (tryMatch : List Char → Option (String × List Char)) :
    Nat → List Char → String
  | 0, rest => String.mk rest
  | _ + 1, [] => ""
  | fuel + 1, c :: rest =>
    match tryMatch (c :: rest) with
    | some (out, rest2) => out ++ replaceAll tryMatch fuel rest2
    | none => String.mk [c] ++ replaceAll tryMatch fuel rest

/-- Lazy `(.*?)` up to a terminating `**`: the shortest run of
non-line-terminator characters followed by two asterisks. -/
def lazyToStars : List Char → Option (String × List Char)
  | '*' :: '*' :: rest => some ("", rest)
  | c :: rest =>
    if c = '\n' || c = '\r' then none
    else (lazyToStars rest).map (fun p => (String.mk [c] ++ p.1, p.2))
  | [] => none

/-- Lazy `(.*?)` up to a terminating backtick. -/
def lazyToBacktick : List Char → Option (String × List Char)
  | '\x60' :: rest => some ("", rest)
  | c :: rest =>
    if c = '\n' || c = '\r' then none
    else (lazyToBacktick rest).map (fun p => (String.mk [c] ++ p.1, p.2))
  | [] => none

/-- Matcher for `/\x60(\d+)\x60\s+\*\*(.*?)\*\*/`: a backtick-wrapped
digit run, whitespace, then a lazily-matched bold label; replaced by the
clickable role button markup. -/
def matchRoleButton : List Char → Option (String × List Char)
  | '\x60' :: rest =>
    let digits := rest.takeWhile (fun c => c.isDigit)
    let rest1 := rest.dropWhile (fun c => c.isDigit)
    if digits.isEmpty then none
    else
      match rest1 with
      | '\x60' :: rest2 =>
        let ws := rest2.takeWhile isJsWhitespace
        let rest3 := rest2.dropWhile isJsWhitespace
        if ws.isEmpty then none
        else
          match rest3 with
          | '*' :: '*' :: rest4 =>
            (lazyToStars rest4).map (fun p =>
              let number := String.mk digits
              let roleName := p.1
              ("<button class=\"role-button\" data-number=\"" ++ number
                ++ "\" onclick=\"window.nexchat.selectRole(\x27" ++ number
                ++ "\x27)\">" ++ number ++ "</button> <strong>" ++ roleName
                ++ "</strong>", p.2))
          | _ => none
      | _ => none
  | _ => none

/-- Matcher for `/\*\*(.*?)\*\*/` replaced by `<strong>$1</strong>`. -/
def matchBold : List Char → Option (String × List Char)
  | '*' :: '*' :: rest =>
    (lazyToStars rest).map (fun p => ("<strong>" ++ p.1 ++ "</strong>", p.2))
  | _ => none

/-- Matcher for the backtick code span replaced by `<code>$1</code>`. -/
def matchCode : List Char → Option (String × List Char)
  | '\x60' :: rest =>
    (lazyToBacktick rest).map (fun p => ("<code>" ++ p.1 ++ "</code>", p.2))
  | _ => none

/-- Matcher for `/\n/` replaced by `<br>`. -/
def matchNewline : List Char → Option (String × List Char)
  | '\n' :: rest => some ("<br>", rest)
  | _ => none

/-- The fixed two-button action row appended to every role-selection
message. -/
def actionButtons : String :=
  "\n            <div class=\"role-action-buttons\">\n                <button class=\"assign-all-button\" onclick=\"window.nexchat.assignAllRoles()\" title=\"Assign ALL available roles at once\">\n                    🚀 Assign ALL Roles\n                </button>\n                <button class=\"cancel-button\" onclick=\"window.nexchat.selectRole(\x27cancel\x27)\" title=\"Cancel role assignment\">\n                    ❌ Cancel\n                </button>\n            </div>\n        "

def runPass (tryMatch : List Char → Option (String × List Char)) (s : String) : String :=
  replaceAll tryMatch (s.data.length + 1) s.data

/-- `formatRoleSelectionMessage(text)`. -/
def formatRoleSelectionMessage (t : String) : String :=
  let s1 := runPass matchRoleButton t
  let s2 := runPass matchBold s1
  let s3 := runPass matchCode s2
  let s4 := runPass matchNewline s3
  "<div class=\"role-selection-content\">" ++ s4 ++ actionButtons ++ "</div>"

/-- The message content `addMessage` mounts inside the message wrapper. -/
def messageContent (t : String) (s : Sender) : String :=
  if isRoleSelectionText t && (s == Sender.bot) then formatRoleSelectionMessage t
  else if isHTMLResponseText t && (s == Sender.bot) then t
  else "<p>" ++ escapeHtml t ++ "</p>"

/-! ## Widget chat state and submission (handleUserInput) -/

/-- In-memory widget state relevant to submission and rendering.
`messages` is the append-only message list (text, sender) in mount order;
`callsIssued` records every message string handed to the transport, in
order. -/
structure ChatState where
  isOpen : Bool
  isTyping : Bool
  inputVal : String
  inputDisabled : Bool
  sendDisabled : Bool
  messages : List (String × Sender)
  callsIssued : List String
deriving DecidableEq, Repr

/-- The synchronous part of `handleUserInput()`: the guard, the user-message
append, clearing and disabling the input, `showTyping()`, and handing the
trimmed text to `sendToBackend`. -/
def handleUserInput (st : ChatState) : ChatState :=
  let userInput := jsTrim st.inputVal
  if userInput = "" || st.isTyping then st
  else
    { st with
      messages := st.messages ++ [(userInput, Sender.user)]
      inputVal := ""
      inputDisabled := true
      sendDisabled := true
      isTyping := true
      callsIssued := st.callsIssued ++ [userInput] }

/-! ## Transport (sendToBackend) -/

/-- The decoded success payload `r.message`; `response` is the optional
`response` field (absent or empty string are both falsy in the
`response.response` check). -/
structure Payload where
  response : Option String
deriving DecidableEq, Repr

/-- Outcome delivered by `frappe.call`: either the `callback` fires with
`r` (whose `message` field may be absent/falsy), or the `error` handler
fires with an optional JSON body message. -/
inductive FrappeResult where
  | callbackR (message : Option Payload)
  | errorR (responseJSONMessage : Option String)
deriving DecidableEq, Repr

/-- Settled state of the promise returned by `sendToBackend`. -/
inductive TransportOutcome where
  | resolved (p : Payload)
  | rejected (errMsg : String)
deriving DecidableEq, Repr

/-- How `sendToBackend`'s promise settles for each `frappe.call` outcome. -/
def sendToBackendResult (r : FrappeResult) : TransportOutcome :=
  match r with
  | FrappeResult.callbackR (some p) => TransportOutcome.resolved p
  | FrappeResult.callbackR none => TransportOutcome.rejected "No response from server"
  | FrappeResult.errorR (some m) => TransportOutcome.rejected m
  | FrappeResult.errorR none => TransportOutcome.rejected "Server error"

/-- Fixed message shown on transport failure. -/
def connectionErrorText : String :=
  "I apologize, but I\x27m having trouble connecting right now. Please check your connection and try again."

/-- Fixed message shown when the success payload has no usable `response`
field. -/
def processingErrorText : String :=
  "Sorry, I encountered an error processing your request. Please try again."

/-- The `.then`/`.catch`/`.finally` continuation of `handleUserInput`:
`hideTyping()`, append the bot message, re-enable the input. Issues no
further transport call. -/
def handleResponse (st : ChatState) (o : TransportOutcome) : ChatState :=
  let st1 := { st with isTyping := false }
  let st2 :=
    match o with
    | TransportOutcome.resolved p =>
      match p.response with
      | some s =>
        if s ≠ "" then { st1 with messages := st1.messages ++ [(s, Sender.bot)] }
        else { st1 with messages := st1.messages ++ [(processingErrorText, Sender.bot)] }
      | none => { st1 with messages := st1.messages ++ [(processingErrorText, Sender.bot)] }
    | TransportOutcome.rejected _ =>
      { st1 with messages := st1.messages ++ [(connectionErrorText, Sender.bot)] }
  { st2 with inputDisabled := false, sendDisabled := false }

/-! ## Role button clicks (selectRole) -/

/-- `selectRole(number)`: new value of the input field given its current
value. -/
def selectRole (number : String) (inputVal : String) : String :=
  let currentValue := jsTrim inputVal
  if currentValue = "" then number
  else if jsIncludes currentValue "," || isAllDigits currentValue then
    currentValue ++ "," ++ number
  else number

/-- Effect of a single `selectRole` invocation on the whole widget state:
only the input field changes; nothing is submitted. -/
def selectRoleState (number : String) (st : ChatState) : ChatState :=
  { st with inputVal := selectRole number st.inputVal }

/-- Effect of one physical click on a rendered role button on the input
field: the button markup emitted by `formatRoleSelectionMessage` carries
an inline `onclick` attribute invoking `selectRole`, and
`addRoleButtonHandlers` binds a second, jQuery-level click handler that
invokes `selectRole` again (`.off('click')` removes only jQuery-bound
handlers, never the inline one), so one click applies `selectRole`
twice. -/
def roleButtonClick (number : String) (inputVal : String) : String :=
  selectRole number (selectRole number inputVal)

/-- Effect of one physical role-button click on the whole widget state:
both handlers only rewrite the input field; neither submits. -/
def roleButtonClickState (number : String) (st : ChatState) : ChatState :=
  { st with inputVal := roleButtonClick number st.inputVal }

/-! ## Option filtering (filterOptions) -/

/-- A rendered option item: its primary and secondary text and whether it
is currently shown. -/
structure OptionItem where
  primary : String
  secondary : String
  visible : Bool
deriving DecidableEq, Repr

/-- The per-item test of `filterOptions`: case-insensitive substring match
against the primary or secondary text. -/
def itemMatches (searchValue : String) (it : OptionItem) : Bool :=
  jsIncludes (jsToLower it.primary) (jsToLower searchValue)
    || jsIncludes (jsToLower it.secondary) (jsToLower searchValue)

/-- `filterOptions(searchValue)` on the option items: show matching items,
hide the rest (never removing any). -/
def filterOptions (searchValue : String) (items : List OptionItem) : List OptionItem :=
  items.map (fun it => { it with visible := itemMatches searchValue it })

/-- `filterOptions(searchValue)` on the collapsible sections' expanded
flags: a non-whitespace query expands every section, otherwise they are
untouched. -/
def filterSections (searchValue : String) (sections : List Bool) : List Bool :=
  if jsTrim searchValue ≠ "" then sections.map (fun _ => true) else sections

/-! ## Keyboard navigation (addKeyboardNavigation) -/

inductive Key where
  | arrowDown
  | arrowUp
  | enter
  | escape
  | other
deriving DecidableEq, Repr

/-- State the document-level `keydown.nexchat-nav` handler reads:
whether the widget is open, how many option items are visible, and the
index of the focused item among the visible items (if any). -/
structure NavState where
  isOpen : Bool
  visibleCount : Nat
  focus : Option Nat
deriving DecidableEq, Repr

/-- Result of one keypress: the new state, whether the default behaviour
was suppressed (`preventDefault`), and whether the focused option's click
handler was activated. -/
structure KeyEffect where
  state : NavState
  prevented : Bool
  activated : Bool
deriving DecidableEq, Repr

/-- `visibleOptions.index(currentFocus)`: `-1` when nothing is focused. -/
def currentIndexOf : Option Nat → Int
  | none => -1
  | some i => (i : Int)

/-- The new focused index computed by the handler for an arrow key
(`(currentIndex + 1) % length` going down, `currentIndex <= 0 ?
length - 1 : currentIndex - 1` going up). -/
def arrowNewIndex (down : Bool) (n : Nat) (focus : Option Nat) : Int :=
  let ci := currentIndexOf focus
  if down then (ci + 1) % (n : Int)
  else if ci ≤ 0 then (n : Int) - 1 else ci - 1

/-- The document-level keydown handler installed by
`addKeyboardNavigation`. -/
def keydownHandler (st : NavState) (k : Key) : KeyEffect :=
  if st.isOpen = false then ⟨st, false, false⟩
  else if st.visibleCount = 0 then ⟨st, false, false⟩
  else
    match k with
    | Key.arrowDown =>
      ⟨{ st with focus := some (arrowNewIndex true st.visibleCount st.focus).toNat },
        true, false⟩
    | Key.arrowUp =>
      ⟨{ st with focus := some (arrowNewIndex false st.visibleCount st.focus).toNat },
        true, false⟩
    | Key.enter => ⟨st, true, st.focus.isSome⟩
    | Key.escape => ⟨{ st with focus := none }, false, false⟩
    | Key.other => ⟨st, false, false⟩

/-- `k` presses of ArrowDown starting from the open widget with `n`
visible items and no focus. -/
def pressDownK (n : Nat) : Nat → NavState
  | 0 => ⟨true, n, none⟩
  | k + 1 => (keydownHandler (pressDownK n k) Key.arrowDown).state

/-! ## Page lifecycle (initializeNexchat / destroy) -/

/-- Host session as seen by `initializeNexchat`: whether `frappe.session`
exists and the (possibly empty) `frappe.session.user`. -/
structure Session where
  sessionPresent : Bool
  user : Option String
deriving DecidableEq, Repr

/-- The guard `frappe.session && frappe.session.user &&
frappe.session.user !== 'Guest'`. -/
def loggedIn (s : Session) : Bool :=
  s.sessionPresent &&
    (match s.user with
     | some u => u ≠ "" && u ≠ "Guest"
     | none => false)

/-- Page-global state: the `window.nexchat` singleton handle, the counts
of `.nexchat-toggle` and `.nexchat-widget` DOM nodes, and whether the
document-level `keydown.nexchat-nav` listener is bound. -/
structure PageState where
  nexchatGlobal : Bool
  toggleCount : Nat
  widgetCount : Nat
  keyListenerBound : Bool
deriving DecidableEq, Repr

/-- Effect of `new NexchatWidget()`: `cleanup()` removes every existing
widget/toggle node, then `init()` appends exactly one toggle button and
one widget panel. -/
def newNexchatWidget (p : PageState) : PageState :=
  { p with toggleCount := 1, widgetCount := 1 }

/-- `initializeNexchat()`: construct and publish the singleton only when a
real user is logged in, no global handle exists and no widget DOM nodes
are present. -/
def initializeNexchat (sess : Session) (p : PageState) : PageState :=
  if loggedIn sess then
    if !p.nexchatGlobal && p.toggleCount + p.widgetCount = 0 then
      { newNexchatWidget p with nexchatGlobal := true }
    else p
  else p

/-- `destroy()`: unbind the document-level keydown listener, remove all
widget and toggle nodes, clear `window.nexchat`. -/
def destroy (p : PageState) : PageState :=
  { p with keyListenerBound := false, toggleCount := 0, widgetCount := 0, nexchatGlobal := false }

/-! ## Helper lemmas -/

theorem startsWithList_iff (pat : List Char) :
    ∀ s : List Char, startsWithList pat s = true ↔ ∃ r, s = pat ++ r := by
  induction pat with
  | nil =>
    intro s
    simp [startsWithList]
  | cons a as ih =>
    intro s
    cases s with
    | nil =>
      simp [startsWithList]
    | cons b bs =>
      rw [show startsWithList (a :: as) (b :: bs) = (a == b && startsWithList as bs) from rfl]
      rw [Bool.and_eq_true, beq_iff_eq, ih bs]
      constructor
      · rintro ⟨rfl, r, rfl⟩
        exact ⟨r, rfl⟩
      · rintro ⟨r, h⟩
        rw [List.cons_append] at h
        injection h with h1 h2
        exact ⟨h1.symm, r, h2⟩

theorem occursIn_iff (pat : List Char) :
    ∀ s : List Char, occursIn pat s = true ↔ ∃ l r, s = l ++ pat ++ r := by
  intro s
  induction s with
  | nil =>
    rw [show occursIn pat [] = pat.isEmpty from rfl]
    cases pat with
    | nil => simp
    | cons c cs => simp [List.isEmpty]
  | cons c rest ih =>
    rw [show occursIn pat (c :: rest) =
      (startsWithList pat (c :: rest) || occursIn pat rest) from rfl]
    rw [Bool.or_eq_true, startsWithList_iff, ih]
    constructor
    · rintro (⟨r, hr⟩ | ⟨l, r, hr⟩)
      · exact ⟨[], r, by simpa using hr⟩
      · exact ⟨c :: l, r, by simp [hr]⟩
    · rintro ⟨l, r, h⟩
      cases l with
      | nil =>
        left
        exact ⟨r, by simpa using h⟩
      | cons x xs =>
        right
        rw [List.cons_append, List.cons_append] at h
        injection h with h1 h2
        exact ⟨xs, r, h2⟩

/-- `s.includes(pat)` holds exactly when `pat`'s characters occur
contiguously inside `s`'s characters. -/
theorem jsIncludes_iff (s pat : String) :
    jsIncludes s pat = true ↔ ∃ l r, s.data = l ++ pat.data ++ r :=
  occursIn_iff pat.data s.data

theorem occursIn_nil_pat (s : List Char) : occursIn [] s = true := by
  cases s with
  | nil => rfl
  | cons c rest =>
    rw [show occursIn [] (c :: rest) =
      (startsWithList [] (c :: rest) || occursIn [] rest) from rfl]
    rfl

/-- Every string includes the empty string. -/
theorem jsIncludes_empty (s : String) : jsIncludes s "" = true :=
  occursIn_nil_pat s.data

theorem escapeHtmlChar_no_lt (c : Char) : ∀ d ∈ (escapeHtmlChar c).data, d ≠ '<' := by
  intro d hd
  unfold escapeHtmlChar at hd
  by_cases h1 : c = '&'
  · rw [if_pos h1] at hd
    rw [show ("&amp;" : String).data = ['&', 'a', 'm', 'p', ';'] from rfl] at hd
    simp at hd
    rcases hd with rfl | rfl | rfl | rfl | rfl <;> decide
  · rw [if_neg h1] at hd
    by_cases h2 : c = '<'
    · rw [if_pos h2] at hd
      rw [show ("&lt;" : String).data = ['&', 'l', 't', ';'] from rfl] at hd
      simp at hd
      rcases hd with rfl | rfl | rfl | rfl <;> decide
    · rw [if_neg h2] at hd
      by_cases h3 : c = '>'
      · rw [if_pos h3] at hd
        rw [show ("&gt;" : String).data = ['&', 'g', 't', ';'] from rfl] at hd
        simp at hd
        rcases hd with rfl | rfl | rfl | rfl <;> decide
      · rw [if_neg h3] at hd
        simp at hd
        subst hd
        exact h2

theorem escapeHtmlList_no_lt (l : List Char) :
    ∀ d ∈ (escapeHtmlList l).data, d ≠ '<' := by
  induction l with
  | nil =>
    intro d hd
    simp [escapeHtmlList] at hd
  | cons c rest ih =>
    intro d hd
    rw [show escapeHtmlList (c :: rest) = escapeHtmlChar c ++ escapeHtmlList rest from rfl,
      String.data_append] at hd
    rcases List.mem_append.mp hd with h | h
    · exact escapeHtmlChar_no_lt c d h
    · exact ih d h

/-- No raw `<` survives HTML escaping. -/
theorem escapeHtml_no_lt (t : String) : ∀ d ∈ (escapeHtml t).data, d ≠ '<' :=
  escapeHtmlList_no_lt t.data

/-! ## Claim theorems -/

/-- C1: every message rendered through the plain path — sender `user`, or
sender `bot` whose text contains neither the role-selection markers nor an
HTML container marker — mounts exactly the HTML-escaped text wrapped in a
paragraph; the escaping maps each HTML-significant character to its entity
(`&` to `&amp;`, `<` to `&lt;`, `>` to `&gt;`, all others unchanged), and
no raw `<` from the input survives in the escaped body. -/
theorem c1_plain_path_escapes (t : String) (s : Sender)
    (h : s = Sender.user ∨
      (s = Sender.bot ∧ isRoleSelectionText t = false ∧ isHTMLResponseText t = false)) :
    messageContent t s = "<p>" ++ escapeHtml t ++ "</p>" ∧
      escapeHtmlChar '&' = "&amp;" ∧
      escapeHtmlChar '<' = "&lt;" ∧
      escapeHtmlChar '>' = "&gt;" ∧
      (∀ c : Char, c ≠ '&' → c ≠ '<' → c ≠ '>' → escapeHtmlChar c = String.mk [c]) ∧
      (∀ d ∈ (escapeHtml t).data, d ≠ '<') := by
  refine ⟨?_, rfl, rfl, rfl, ?_, escapeHtml_no_lt t⟩
  · unfold messageContent
    rcases h with rfl | ⟨rfl, h1, h2⟩
    · cases hr : isRoleSelectionText t <;> cases hh : isHTMLResponseText t <;> rfl
    · rw [h1, h2]
      rfl
  · intro c hc1 hc2 hc3
    unfold escapeHtmlChar
    rw [if_neg hc1, if_neg hc2, if_neg hc3]

theorem c1_plain_path_escapes_witness :
    messageContent "<script>alert(1)</script> & <img>" Sender.user =
      "<p>" ++ escapeHtml "<script>alert(1)</script> & <img>" ++ "</p>" ∧
      escapeHtml "<script>alert(1)</script> & <img>" =
        "&lt;script&gt;alert(1)&lt;/script&gt; &amp; &lt;img&gt;" := by
  refine ⟨(c1_plain_path_escapes "<script>alert(1)</script> & <img>" Sender.user
    (Or.inl rfl)).1, rfl⟩

/-- C2: classification is ordered with first match winning — for a bot
message, the role-selection test (contains `Select Role(s) for` and a
backtick) takes priority over the HTML-container test, which in turn takes
priority over the plain path. -/
theorem c2_classification_order (t : String) :
    (isRoleSelectionText t = true → renderKind t Sender.bot = RenderKind.roleSelection) ∧
      ((isRoleSelectionText t = false ∧ isHTMLResponseText t = true) →
        renderKind t Sender.bot = RenderKind.rawHtml) ∧
      ((isRoleSelectionText t = false ∧ isHTMLResponseText t = false) →
        renderKind t Sender.bot = RenderKind.plain) := by
  refine ⟨?_, ?_, ?_⟩
  · intro h
    unfold renderKind
    rw [h]
    rfl
  · rintro ⟨h1, h2⟩
    unfold renderKind
    rw [h1, h2]
    rfl
  · rintro ⟨h1, h2⟩
    unfold renderKind
    rw [h1, h2]
    rfl

theorem c2_classification_order_witness :
    renderKind
      "Select Role(s) for Bob: \x601\x60 **Manager** <div class=\"nexchat-options-container\">"
      Sender.bot = RenderKind.roleSelection :=
  (c2_classification_order
    "Select Role(s) for Bob: \x601\x60 **Manager** <div class=\"nexchat-options-container\">").1
    (by decide)

/-- C9: a message whose sender is `user` always takes the escaping plain
path, whatever marker substrings its text contains; the role-selection and
raw-HTML content branches are reachable only for sender `bot`. -/
theorem c9_user_always_plain (t : String) :
    renderKind t Sender.user = RenderKind.plain ∧
      messageContent t Sender.user = "<p>" ++ escapeHtml t ++ "</p>" := by
  constructor
  · unfold renderKind
    cases h1 : isRoleSelectionText t <;> cases h2 : isHTMLResponseText t <;> rfl
  · unfold messageContent
    cases h1 : isRoleSelectionText t <;> cases h2 : isHTMLResponseText t <;> rfl

/-- C3: submitting while `isTyping` is true, or with empty trimmed input,
leaves the widget state unchanged — in particular no transport call is
issued and no user message is appended. -/
theorem c3_submit_guard (st : ChatState)
    (h : st.isTyping = true ∨ jsTrim st.inputVal = "") :
    handleUserInput st = st ∧
      (handleUserInput st).callsIssued = st.callsIssued ∧
      (handleUserInput st).messages = st.messages := by
  have heq : handleUserInput st = st := by
    unfold handleUserInput
    rcases h with h | h
    · rw [h]
      simp
    · rw [h]
      simp
  exact ⟨heq, by rw [heq], by rw [heq]⟩

theorem c3_submit_guard_witness :
    handleUserInput ⟨true, true, "delete everything", false, false, [], []⟩ =
      ⟨true, true, "delete everything", false, false, [], []⟩ ∧
    handleUserInput ⟨true, false, "   ", false, false, [], []⟩ =
      ⟨true, false, "   ", false, false, [], []⟩ :=
  ⟨(c3_submit_guard ⟨true, true, "delete everything", false, false, [], []⟩
      (Or.inl rfl)).1,
   (c3_submit_guard ⟨true, false, "   ", false, false, [], []⟩
      (Or.inr rfl)).1⟩

/-- C4: error handling of one submission — the transport promise rejects
with the server-supplied body message when present and with the default
`Server error` string otherwise; a rejected outcome appends the fixed
apologetic connection message and re-enables the input; a resolved outcome
whose payload lacks a usable `response` field appends the fixed
`encountered an error` message and re-enables the input; the continuation
issues no further transport call, and a valid submission issues exactly
one call. -/
theorem c4_error_handling (st : ChatState) :
    (∀ m : String, sendToBackendResult (FrappeResult.errorR (some m)) =
      TransportOutcome.rejected m) ∧
      sendToBackendResult (FrappeResult.errorR none) =
        TransportOutcome.rejected "Server error" ∧
      (∀ e : String,
        (handleResponse st (TransportOutcome.rejected e)).messages =
            st.messages ++ [(connectionErrorText, Sender.bot)] ∧
          (handleResponse st (TransportOutcome.rejected e)).inputDisabled = false ∧
          (handleResponse st (TransportOutcome.rejected e)).sendDisabled = false ∧
          (handleResponse st (TransportOutcome.rejected e)).isTyping = false) ∧
      (∀ p : Payload, (p.response = none ∨ p.response = some "") →
        (handleResponse st (TransportOutcome.resolved p)).messages =
            st.messages ++ [(processingErrorText, Sender.bot)] ∧
          (handleResponse st (TransportOutcome.resolved p)).inputDisabled = false) ∧
      (∀ o : TransportOutcome,
        (handleResponse st o).callsIssued = st.callsIssued) ∧
      (jsTrim st.inputVal ≠ "" → st.isTyping = false →
        (handleUserInput st).callsIssued = st.callsIssued ++ [jsTrim st.inputVal]) := by
  refine ⟨fun m => rfl, rfl, fun e => ⟨rfl, rfl, rfl, rfl⟩, ?_, ?_, ?_⟩
  · rintro p (h | h) <;> rw [show (TransportOutcome.resolved p) =
      TransportOutcome.resolved ⟨p.response⟩ from rfl, h] <;> exact ⟨rfl, rfl⟩
  · intro o
    unfold handleResponse
    rcases o with p | e
    · rcases p with ⟨_ | s⟩
      · rfl
      · by_cases hs : s = "" <;> simp [hs]
    · rfl
  · intro h1 h2
    unfold handleUserInput
    rw [h2]
    simp only [Bool.or_false]
    rw [if_neg (by simpa using h1)]

theorem c4_error_handling_witness :
    (handleResponse ⟨true, true, "", true, true, [("hi", Sender.user)], ["hi"]⟩
        (TransportOutcome.rejected "boom")).messages =
      [("hi", Sender.user)] ++ [(connectionErrorText, Sender.bot)] ∧
    (handleResponse ⟨true, true, "", true, true, [("hi", Sender.user)], ["hi"]⟩
        (TransportOutcome.resolved ⟨none⟩)).messages =
      [("hi", Sender.user)] ++ [(processingErrorText, Sender.bot)] ∧
    (handleUserInput ⟨true, false, " hi ", false, false, [], []⟩).callsIssued = ["hi"] :=
  ⟨((c4_error_handling
      ⟨true, true, "", true, true, [("hi", Sender.user)], ["hi"]⟩).2.2.1 "boom").1,
   ((c4_error_handling
      ⟨true, true, "", true, true, [("hi", Sender.user)], ["hi"]⟩).2.2.2.1 ⟨none⟩
      (Or.inl rfl)).1,
   (c4_error_handling ⟨true, false, " hi ", false, false, [], []⟩).2.2.2.2.2
      (by decide) rfl⟩

/-- C6: the claimed per-click behaviour fails on the code. Each rendered
role button carries both an inline `onclick` and a jQuery-bound click
handler, so one physical click invokes `selectRole` twice: clicking
button 3 on an empty field leaves `3,3` (and clicking 5 afterwards leaves
`3,3,5,5`), not the `3` then `3,5` the claim requires. A single
`selectRole` invocation does produce the claimed values (`3`, then
`3,5`), showing the claim describes the intended one-invocation
behaviour; and even the double-firing click submits nothing. -/
theorem c6_role_click_double_fire :
    roleButtonClick "3" "" = "3,3" ∧
      roleButtonClick "5" (roleButtonClick "3" "") = "3,3,5,5" ∧
      roleButtonClick "3" "" ≠ "3" ∧
      selectRole "3" "" = "3" ∧
      selectRole "5" "3" = "3,5" ∧
      selectRole "2" "7" = "7,2" ∧
      (roleButtonClickState "3"
        ⟨true, false, "", false, false, [("m", Sender.bot)], []⟩).messages
        = [("m", Sender.bot)] ∧
      (roleButtonClickState "3"
        ⟨true, false, "", false, false, [("m", Sender.bot)], []⟩).callsIssued = [] := by
  refine ⟨rfl, rfl, ?_, rfl, rfl, rfl, rfl, rfl⟩
  decide

/-- C5: the widget is a per-page singleton — initialization is a no-op
when an instance already exists or the user is not a real logged-in user
(guest included), and `destroy` removes all widget DOM nodes, clears the
global handle and unbinds the document-level key listener, so that a
subsequent initialization by a logged-in user creates exactly one new
instance with exactly one toggle button. -/
theorem c5_singleton_lifecycle (sess : Session) (p : PageState) :
    (loggedIn sess = false → initializeNexchat sess p = p) ∧
      (p.nexchatGlobal = true → initializeNexchat sess p = p) ∧
      (destroy p).toggleCount = 0 ∧
      (destroy p).widgetCount = 0 ∧
      (destroy p).nexchatGlobal = false ∧
      (destroy p).keyListenerBound = false ∧
      (loggedIn sess = true →
        initializeNexchat sess (destroy p) =
          { nexchatGlobal := true, toggleCount := 1, widgetCount := 1,
            keyListenerBound := false }) := by
  refine ⟨?_, ?_, rfl, rfl, rfl, rfl, ?_⟩
  · intro h
    unfold initializeNexchat
    rw [h]
    rfl
  · intro h
    unfold initializeNexchat
    rw [h]
    by_cases hl : loggedIn sess = true <;> simp [hl]
  · intro h
    unfold initializeNexchat
    rw [h]
    rfl

theorem c5_singleton_lifecycle_witness :
    initializeNexchat ⟨true, some "Guest"⟩ ⟨false, 0, 0, false⟩ =
      ⟨false, 0, 0, false⟩ ∧
    initializeNexchat ⟨true, some "alice"⟩ ⟨true, 1, 1, true⟩ = ⟨true, 1, 1, true⟩ ∧
    initializeNexchat ⟨true, some "alice"⟩ (destroy ⟨true, 3, 3, true⟩) =
      ⟨true, 1, 1, false⟩ :=
  ⟨(c5_singleton_lifecycle ⟨true, some "Guest"⟩ ⟨false, 0, 0, false⟩).1 rfl,
   (c5_singleton_lifecycle ⟨true, some "alice"⟩ ⟨true, 1, 1, true⟩).2.1 rfl,
   (c5_singleton_lifecycle ⟨true, some "alice"⟩ ⟨true, 3, 3, true⟩).2.2.2.2.2.2 rfl⟩

/-- C8: an option item stays visible under `filterOptions` exactly when
the lowercased query occurs as a contiguous substring of its lowercased
primary or secondary text; a query matching no item hides every item while
removing none; a query that is non-empty after trimming expands every
collapsible section; and the empty query makes every item visible. -/
theorem c8_filter_options (q : String) (items : List OptionItem) (sections : List Bool) :
    (∀ it : OptionItem, itemMatches q it = true ↔
        ((∃ l r, (jsToLower it.primary).data = l ++ (jsToLower q).data ++ r) ∨
          (∃ l r, (jsToLower it.secondary).data = l ++ (jsToLower q).data ++ r))) ∧
      (filterOptions q items).length = items.length ∧
      ((∀ it ∈ items, itemMatches q it = false) →
        ∀ it2 ∈ filterOptions q items, it2.visible = false) ∧
      (jsTrim q ≠ "" → filterSections q sections = sections.map (fun _ => true)) ∧
      (∀ it2 ∈ filterOptions "" items, it2.visible = true) := by
  refine ⟨?_, ?_, ?_, ?_, ?_⟩
  · intro it
    unfold itemMatches
    rw [Bool.or_eq_true, jsIncludes_iff, jsIncludes_iff]
  · unfold filterOptions
    rw [List.length_map]
  · intro h it2 h2
    unfold filterOptions at h2
    rcases List.mem_map.mp h2 with ⟨it, hit, rfl⟩
    exact h it hit
  · intro h
    unfold filterSections
    rw [if_pos h]
  · intro it2 h2
    unfold filterOptions at h2
    rcases List.mem_map.mp h2 with ⟨it, hit, rfl⟩
    show itemMatches "" it = true
    unfold itemMatches
    rw [show jsToLower "" = "" from rfl, jsIncludes_empty]
    rfl

theorem c8_filter_options_witness :
    (filterOptions "zzz" [⟨"Alpha", "first", true⟩, ⟨"Beta", "second", true⟩]).length = 2 ∧
    (∀ it2 ∈ filterOptions "zzz" [⟨"Alpha", "first", true⟩, ⟨"Beta", "second", true⟩],
      it2.visible = false) ∧
    (∀ it2 ∈ filterOptions "" [⟨"Alpha", "first", false⟩, ⟨"Beta", "second", false⟩],
      it2.visible = true) ∧
    filterSections "al" [false, false] = [true, true] ∧
    itemMatches "ALP" ⟨"the alpine pass", "x", true⟩ = true :=
  ⟨(c8_filter_options "zzz" [⟨"Alpha", "first", true⟩, ⟨"Beta", "second", true⟩] []).2.1,
   (c8_filter_options "zzz" [⟨"Alpha", "first", true⟩, ⟨"Beta", "second", true⟩] []).2.2.1
      (by decide),
   (c8_filter_options "" [⟨"Alpha", "first", false⟩, ⟨"Beta", "second", false⟩] []).2.2.2.2,
   (c8_filter_options "al" [] [false, false]).2.2.2.1 (by decide),
   ((c8_filter_options "ALP" [] []).1 ⟨"the alpine pass", "x", true⟩).mpr
      (Or.inl ⟨['t', 'h', 'e', ' '], "ine pass".data, by decide⟩)⟩

/-! ### Keyboard-navigation lemmas -/

theorem keydownHandler_open (n : Nat) (hn : n ≠ 0) (f : Option Nat) (k : Key) :
    keydownHandler ⟨true, n, f⟩ k =
      (match k with
       | Key.arrowDown =>
         ⟨⟨true, n, some (arrowNewIndex true n f).toNat⟩, true, false⟩
       | Key.arrowUp =>
         ⟨⟨true, n, some (arrowNewIndex false n f).toNat⟩, true, false⟩
       | Key.enter => ⟨⟨true, n, f⟩, true, f.isSome⟩
       | Key.escape => ⟨⟨true, n, none⟩, false, false⟩
       | Key.other => ⟨⟨true, n, f⟩, false, false⟩) := by
  unfold keydownHandler
  rw [if_neg (by simp), if_neg (by simpa using hn)]

theorem arrowNewIndex_down_none (n : Nat) : (arrowNewIndex true n none).toNat = 0 := by
  show (((-1 : Int) + 1) % (n : Int)).toNat = 0
  norm_num

theorem arrowNewIndex_down_some (n i : Nat) :
    (arrowNewIndex true n (some i)).toNat = (i + 1) % n := by
  show ((((i : Nat) : Int) + 1) % (n : Int)).toNat = (i + 1) % n
  rw [show ((i : Nat) : Int) + 1 = ((i + 1 : Nat) : Int) by push_cast; ring,
    ← Int.natCast_mod, Int.toNat_natCast]

theorem arrowNewIndex_up_none (n : Nat) : (arrowNewIndex false n none).toNat = n - 1 := by
  show ((n : Int) - 1).toNat = n - 1
  omega

theorem arrowNewIndex_up_zero (n : Nat) : (arrowNewIndex false n (some 0)).toNat = n - 1 := by
  show ((n : Int) - 1).toNat = n - 1
  omega

theorem pressDownK_spec (n : Nat) (hn : 0 < n) :
    ∀ k, pressDownK n (k + 1) = ⟨true, n, some (k % n)⟩ := by
  intro k
  induction k with
  | zero =>
    rw [show pressDownK n 1 = (keydownHandler (pressDownK n 0) Key.arrowDown).state from rfl,
      show pressDownK n 0 = (⟨true, n, none⟩ : NavState) from rfl,
      keydownHandler_open n hn.ne' none Key.arrowDown]
    show (⟨true, n, some (arrowNewIndex true n none).toNat⟩ : NavState) =
      ⟨true, n, some (0 % n)⟩
    rw [arrowNewIndex_down_none, Nat.zero_mod]
  | succ j ih =>
    rw [show pressDownK n (j + 1 + 1) =
      (keydownHandler (pressDownK n (j + 1)) Key.arrowDown).state from rfl, ih,
      keydownHandler_open n hn.ne' (some (j % n)) Key.arrowDown]
    show (⟨true, n, some (arrowNewIndex true n (some (j % n))).toNat⟩ : NavState) =
      ⟨true, n, some ((j + 1) % n)⟩
    rw [arrowNewIndex_down_some, Nat.mod_add_mod]

/-- C7: keyboard navigation over `n ≥ 1` visible option items is circular
with wraparound — ArrowDown from no focus lands on the first item,
ArrowDown from the last item wraps back to the first, `k + 1` ArrowDown
presses from no focus land on index `k % n` (so within any one cycle of
`n` presses the first item is hit exactly once), ArrowUp from the first
item or from no focus lands on the last item, and exactly one item is
focused after any arrow keypress. -/
theorem c7_arrow_wraparound (n : Nat) (hn : 0 < n) :
    (keydownHandler ⟨true, n, none⟩ Key.arrowDown).state.focus = some 0 ∧
      (keydownHandler ⟨true, n, some (n - 1)⟩ Key.arrowDown).state.focus = some 0 ∧
      (∀ k, 1 ≤ k → k ≤ n → ((pressDownK n k).focus = some 0 ↔ k = 1)) ∧
      (∀ k, (pressDownK n (k + 1)).focus = some (k % n)) ∧
      (keydownHandler ⟨true, n, some 0⟩ Key.arrowUp).state.focus = some (n - 1) ∧
      (keydownHandler ⟨true, n, none⟩ Key.arrowUp).state.focus = some (n - 1) ∧
      (∀ f : Option Nat, ∀ k : Key, (k = Key.arrowDown ∨ k = Key.arrowUp) →
        ((keydownHandler ⟨true, n, f⟩ k).state.focus).isSome = true) := by
  refine ⟨?_, ?_, ?_, ?_, ?_, ?_, ?_⟩
  · rw [keydownHandler_open n hn.ne' none Key.arrowDown]
    show some (arrowNewIndex true n none).toNat = some 0
    rw [arrowNewIndex_down_none]
  · rw [keydownHandler_open n hn.ne' (some (n - 1)) Key.arrowDown]
    show some (arrowNewIndex true n (some (n - 1))).toNat = some 0
    rw [arrowNewIndex_down_some]
    have h1 : n - 1 + 1 = n := by omega
    rw [h1, Nat.mod_self]
  · intro k h1 h2
    obtain ⟨j, rfl⟩ : ∃ j, k = j + 1 := ⟨k - 1, by omega⟩
    rw [pressDownK_spec n hn j]
    show some (j % n) = some 0 ↔ j + 1 = 1
    rw [Nat.mod_eq_of_lt (by omega)]
    constructor
    · intro h
      injection h with h
      omega
    · intro h
      have hj : j = 0 := by omega
      rw [hj]
  · intro k
    rw [pressDownK_spec n hn k]
  · rw [keydownHandler_open n hn.ne' (some 0) Key.arrowUp]
    show some (arrowNewIndex false n (some 0)).toNat = some (n - 1)
    rw [arrowNewIndex_up_zero]
  · rw [keydownHandler_open n hn.ne' none Key.arrowUp]
    show some (arrowNewIndex false n none).toNat = some (n - 1)
    rw [arrowNewIndex_up_none]
  · rintro f k (rfl | rfl) <;> rw [keydownHandler_open n hn.ne' f] <;> rfl

theorem c7_arrow_wraparound_witness :
    (keydownHandler ⟨true, 4, none⟩ Key.arrowDown).state.focus = some 0 ∧
      (keydownHandler ⟨true, 4, some 3⟩ Key.arrowDown).state.focus = some 0 ∧
      ((pressDownK 4 4).focus = some 0 ↔ (4 : Nat) = 1) ∧
      (keydownHandler ⟨true, 4, some 0⟩ Key.arrowUp).state.focus = some 3 :=
  ⟨(c7_arrow_wraparound 4 (by decide)).1,
   (c7_arrow_wraparound 4 (by decide)).2.1,
   (c7_arrow_wraparound 4 (by decide)).2.2.1 4 (by decide) (by decide),
   (c7_arrow_wraparound 4 (by decide)).2.2.2.2.1⟩

/-- C10: the document-level keydown handler is a no-op whenever the widget
is closed or no option item is visible — for every key the state is
unchanged, the default behaviour is not suppressed, and no option is
activated. -/
theorem c10_keydown_noop (st : NavState) (k : Key)
    (h : st.isOpen = false ∨ st.visibleCount = 0) :
    keydownHandler st k = ⟨st, false, false⟩ := by
  unfold keydownHandler
  rcases h with h | h
  · rw [if_pos h]
  · by_cases ho : st.isOpen = false
    · rw [if_pos ho]
    · rw [if_neg ho, if_pos h]

theorem c10_keydown_noop_witness :
    keydownHandler ⟨false, 7, some 3⟩ Key.arrowDown = ⟨⟨false, 7, some 3⟩, false, false⟩ ∧
      keydownHandler ⟨true, 0, none⟩ Key.enter = ⟨⟨true, 0, none⟩, false, false⟩ :=
  ⟨c10_keydown_noop ⟨false, 7, some 3⟩ Key.arrowDown (Or.inl rfl),
   c10_keydown_noop ⟨true, 0, none⟩ Key.enter (Or.inr rfl)⟩

end Nexchat
